import Mathlib

/-!
Shallow embedding of the `weather_station` repository's three source parts
(`src/assets/service-worker.js`): the browser offline-cache service worker,
the satellite-tile download loop (bash), and the whole-sky-camera capture
loop (bash).  Every definition mirrors the source; theorems settle the
claims about scheduling, timestamp alignment, window gating, retention,
and the cache-first fetch handler.
-/

namespace WeatherStation

/-! ### Wall-clock readings (components of `date -u`) -/

/-- One wall-clock reading, as the satellite loop samples it:
`date -u +%Y`, `+%m`, `+%d`, `+%H`, `+%M` (all UTC). -/
structure ClockReading where
  year : Nat
  month : Nat
  day : Nat
  hour : Nat
  minute : Nat
deriving DecidableEq, Repr

/-! ### Satellite loop: timestamp calculation (service-worker.js lines 44-53)

The source computes, in bash arithmetic:
`INTERVAL_NUM=$((CURRENT_MINUTE / 65))`,
`TARGET_MINUTE_NUM=$((INTERVAL_NUM * 65))`,
`TARGET_MINUTE=$(printf "%02d" $TARGET_MINUTE_NUM)`,
`LATEST_TIMESTAMP=${YEAR}${MONTH}${DAY}${HOUR}${TARGET_MINUTE}`. -/

/-- `INTERVAL_NUM=$((CURRENT_MINUTE / 65))` — bash integer division. -/
def INTERVAL_NUM (currentMinute : Nat) : Nat := currentMinute / 65

/-- `TARGET_MINUTE_NUM=$((INTERVAL_NUM * 65))`. -/
def TARGET_MINUTE_NUM (currentMinute : Nat) : Nat := INTERVAL_NUM currentMinute * 65

/-- `printf "%02d"` — zero-pad a two-digit field. -/
def pad2 (n : Nat) : String := if n < 10 then "0" ++ toString n else toString n

/-- `LATEST_TIMESTAMP="${CURRENT_YEAR}${CURRENT_MONTH}${CURRENT_DAY}${CURRENT_HOUR}${TARGET_MINUTE}"`
(the `date -u` fields `%m`, `%d`, `%H` are already zero-padded strings). -/
def LATEST_TIMESTAMP (c : ClockReading) : String :=
  toString c.year ++ pad2 c.month ++ pad2 c.day ++ pad2 c.hour ++
    pad2 (TARGET_MINUTE_NUM c.minute)

/-! ### Camera loop: window gate (service-worker.js lines 98-101) -/

/-- `[ "$CURRENT_HOUR" -ge 3 ] && [ "$CURRENT_HOUR" -lt 18 ]`. -/
def windowOpen (currentHour : Nat) : Bool :=
  decide (3 ≤ currentHour) && decide (currentHour < 18)

/-- The camera loop reads only `date -u +"%H"` before gating. -/
def cameraGate (now : ClockReading) : Bool := windowOpen now.hour

/-! ### Camera loop: retention pruning (service-worker.js lines 114-119)

```
NON_THUNDER_IMAGES=$(ls -t "$IMG_DIR"/*.jpg 2>/dev/null | grep -v "/THUNDER")
IMAGE_COUNT=$(echo "$NON_THUNDER_IMAGES" | wc -l)
if [ "$IMAGE_COUNT" -gt 30 ]; then
    echo "$NON_THUNDER_IMAGES" | tail -n +31 | xargs rm --
fi
```

A directory is a finite list of files; `ls -t` lists them sorted by
modification time, newest first.  `grep -v "/THUNDER"` drops the paths
`$IMG_DIR/NAME.jpg` whose filename starts with `THUNDER` (the pin marker).
`tail -n +31` drops the first 30 lines, i.e. keeps the entries from
position 31 on, and `xargs rm` deletes those files.  (`wc -l` reports 1
for an empty selection, but `1 > 30` is false, so the quirk is inert.)
We model the pass generically in the bound (30 in the source) and the pin
predicate (`THUNDER` filename marker in the source). -/

/-- One stored camera frame: its filename and its modification time. -/
structure Artifact where
  name : String
  mtime : Nat
deriving DecidableEq, Repr

/-- The `ls -t` order: `a` before `b` when `a` is at least as recent. -/
def newerFirst (a b : Artifact) : Prop := b.mtime ≤ a.mtime

instance : DecidableRel newerFirst := fun a b => Nat.decLe b.mtime a.mtime

instance : IsTotal Artifact newerFirst := ⟨fun a b => Nat.le_total b.mtime a.mtime⟩

instance : IsTrans Artifact newerFirst := ⟨fun _ _ _ h1 h2 => Nat.le_trans h2 h1⟩

/-- `ls -t "$IMG_DIR"/*.jpg`: the directory listing, newest first. -/
def lsT (dir : List Artifact) : List Artifact := dir.insertionSort newerFirst

/-- `grep -v "/THUNDER"` on `$IMG_DIR/NAME.jpg` paths: a file is pinned
(exempt from pruning) iff its name starts with `THUNDER`. -/
def isPinned (a : Artifact) : Bool := "THUNDER".data.isPrefixOf a.name.data

/-- The pruning block: list newest-first, select the non-pinned files, and
if more than `maxCount` of them exist, delete all but the newest
`maxCount`.  Returns (remaining directory, evicted files). -/
def enforceRetention (maxCount : Nat) (pinned : Artifact → Bool)
    (dir : List Artifact) : List Artifact × List Artifact :=
  let nonPinned := (lsT dir).filter (fun a => !(pinned a))
  if maxCount < nonPinned.length then
    let doomed := nonPinned.drop maxCount
    ((lsT dir).filter (fun a => decide (a ∉ doomed)), doomed)
  else
    (lsT dir, [])

/-- A concrete directory: 5 unpinned frames and 2 pinned (`THUNDER`)
frames, distinct modification times. -/
def exampleDir : List Artifact :=
  [⟨"01-06-2024_10:00:00.jpg", 100⟩, ⟨"THUNDER_a.jpg", 90⟩,
   ⟨"01-06-2024_09:00:00.jpg", 80⟩, ⟨"01-06-2024_08:00:00.jpg", 70⟩,
   ⟨"THUNDER_b.jpg", 60⟩, ⟨"01-06-2024_07:00:00.jpg", 50⟩,
   ⟨"01-06-2024_06:00:00.jpg", 40⟩]

/-! ### Satellite loop: one iteration (service-worker.js lines 35-86)

Each iteration of the `while true` loop: compute `LATEST_TIMESTAMP`, run
`curl -f -L -s -o "$OUTPUT_PATH" "$CURRENT_IMAGE_URL"` once, then branch
on curl's exit status and the `-s` (non-empty) file test, then
`sleep 900`.  We record the iteration as a trace of its observable
actions.  With `-f`, an HTTP error or transport failure produces a
nonzero exit status and no body is written to the output path; on exit
status 0 the response body (possibly empty) has been written over the
output path. -/

/-- Outcome of the single `curl` invocation: exit status 0 with the body
that was streamed to the output path, or a nonzero exit code. -/
inductive CurlResult where
  | ok (body : List Nat)
  | err (code : Nat)
deriving DecidableEq, Repr

/-- One observable action of a satellite-loop iteration. -/
inductive SatEvent where
  | fetch (timestamp : String)
  | write (content : List Nat)
  | removeFile
  | sleep (seconds : Nat)
deriving DecidableEq, Repr

/-- One iteration of the satellite loop, as the trace of its actions:
one `curl` (which on success writes the body to `$OUTPUT_PATH`), then the
empty-file check (`rm -f` on an empty download), then `sleep 900`. -/
def satelliteCycle (c : ClockReading) (r : CurlResult) : List SatEvent :=
  match r with
  | .ok body =>
      if body.length ≠ 0 then
        [.fetch (LATEST_TIMESTAMP c), .write body, .sleep 900]
      else
        [.fetch (LATEST_TIMESTAMP c), .write body, .removeFile, .sleep 900]
  | .err _ => [.fetch (LATEST_TIMESTAMP c), .sleep 900]

/-- Content of the fixed output path (`satellite_greece.jpg`): `none` if
no file exists, else the byte list stored there. -/
def applySatEvent (st : Option (List Nat)) : SatEvent → Option (List Nat)
  | .write b => some b
  | .removeFile => none
  | _ => st

/-- Run a trace of satellite events against the output-path state. -/
def runSat (st : Option (List Nat)) (evs : List SatEvent) : Option (List Nat) :=
  evs.foldl applySatEvent st

/-- Whether an event is the `curl` retrieval attempt. -/
def isFetch : SatEvent → Bool
  | .fetch _ => true
  | _ => false

/-- The successive contents of the output path while
`curl -o "$OUTPUT_PATH"` streams a body of `n` bytes directly over the
fixed target path: the prior state, then (once the file is opened and
truncated) every prefix of the new body in order.  The source has no
temporary file and no rename: the download is written in place. -/
def directWriteStates (prior : Option (List Nat)) (payload : List Nat) :
    List (Option (List Nat)) :=
  prior :: (List.range (payload.length + 1)).map (fun k => some (payload.take k))

/-! ### Camera loop: one iteration (service-worker.js lines 96-123)

Each iteration: read the UTC hour; if `3 <= hour < 18`, run
`libcamera-still ... -o "$OUTPUT_FILE"` (which on success creates one new
file, on failure creates none), else echo a skip message; in either case
run the pruning block, then `sleep 300`. -/

/-- One observable action of a camera-loop iteration. -/
inductive CamEvent where
  | capture (result : Option Artifact)
  | skipped
  | prune (doomed : List Artifact)
  | sleep (seconds : Nat)
deriving DecidableEq, Repr

/-- Result of one camera-loop iteration: its action trace and the
directory contents after the iteration. -/
structure CamCycleResult where
  events : List CamEvent
  dir : List Artifact
deriving DecidableEq, Repr

/-- One iteration of the camera loop.  `captureResult` is the outcome of
the `libcamera-still` invocation (`some a`: frame `a` was written;
`none`: the capture failed and wrote nothing); it is only consulted when
the window gate is open.  The pruning block runs unconditionally, after
the gate branch; the iteration ends with `sleep 300`. -/
def cameraCycle (currentHour : Nat) (captureResult : Option Artifact)
    (dir : List Artifact) : CamCycleResult :=
  let step :=
    if windowOpen currentHour then
      match captureResult with
      | some a => (dir ++ [a], [CamEvent.capture (some a)])
      | none => (dir, [CamEvent.capture none])
    else
      (dir, [CamEvent.skipped])
  let pruned := enforceRetention 30 isPinned step.1
  { events := step.2 ++
      (if pruned.2.isEmpty then [] else [CamEvent.prune pruned.2]) ++
      [CamEvent.sleep 300],
    dir := pruned.1 }

/-! ### Offline-cache service worker (service-worker.js lines 1-20)

```
self.addEventListener("install", event => {
  event.waitUntil(caches.open(CACHE_NAME).then(cache => cache.addAll(urlsToCache)));
});
self.addEventListener("fetch", event => {
  event.respondWith(caches.match(event.request).then(response => response || fetch(event.request)));
});
```
-/

/-- `const urlsToCache = ["/", "/assets/manifest.json"]`. -/
def urlsToCache : List String := ["/", "/assets/manifest.json"]

/-- The cache: request URL to cached response body. -/
structure CacheState where
  entries : List (String × String)
deriving DecidableEq, Repr

/-- `cache.addAll(urls)`: fetch each URL from the network and add the
pair to the cache. -/
def cacheAddAll (network : String → String) (urls : List String)
    (st : CacheState) : CacheState :=
  { entries := st.entries ++ urls.map (fun u => (u, network u)) }

/-- The `install` handler: populate the cache with `urlsToCache`. -/
def installHandler (network : String → String) (st : CacheState) : CacheState :=
  cacheAddAll network urlsToCache st

/-- `caches.match(request)`: the cached response for the request, if any. -/
def cachesMatch (st : CacheState) (req : String) : Option String :=
  (st.entries.find? (fun e => e.1 == req)).map (fun e => e.2)

/-- Where a response came from. -/
inductive Served where
  | fromCache (response : String)
  | fromNetwork (response : String)
deriving DecidableEq, Repr

/-- The `fetch` handler: `caches.match(event.request).then(response =>
response || fetch(event.request))`.  Returns the response (tagged with
its origin) and the cache state afterwards (the handler never writes to
the cache). -/
def fetchHandler (st : CacheState) (network : String → String)
    (req : String) : Served × CacheState :=
  (match cachesMatch st req with
   | some r => .fromCache r
   | none => .fromNetwork (network req),
   st)

/-- A concrete network: each URL answers with a tagged body. -/
def exampleNetwork : String → String := fun u => "body:" ++ u

/-- The cache after the install handler ran against `exampleNetwork`. -/
def exampleCache : CacheState := installHandler exampleNetwork { entries := [] }

end WeatherStation

namespace WeatherStation

/-! ### Retention lemmas -/

theorem sorted_lsT (dir : List Artifact) : (lsT dir).Sorted newerFirst :=
  List.sorted_insertionSort newerFirst dir

theorem nodup_lsT {dir : List Artifact} (h : dir.Nodup) : (lsT dir).Nodup :=
  (List.perm_insertionSort newerFirst dir).nodup_iff.mpr h

theorem filter_not_mem_drop {l : List Artifact} (n : Nat) (h : l.Nodup) :
    l.filter (fun a => decide (a ∉ l.drop n)) = l.take n := by
  have hsplit : l.take n ++ l.drop n = l := List.take_append_drop n l
  have hnd : (l.take n ++ l.drop n).Nodup := by rw [hsplit]; exact h
  have hdisj : (l.take n).Disjoint (l.drop n) := (List.nodup_append.mp hnd).2.2
  have h1 : (l.take n).filter (fun a => decide (a ∉ l.drop n)) = l.take n := by
    rw [List.filter_eq_self]
    intro a ha
    simpa using hdisj ha
  have h2 : (l.drop n).filter (fun a => decide (a ∉ l.drop n)) = [] := by
    simp only [List.filter_eq_nil_iff]
    intro a ha
    simp [ha]
  have key : (l.take n ++ l.drop n).filter (fun a => decide (a ∉ l.drop n)) = l.take n := by
    rw [List.filter_append, h1, h2, List.append_nil]
  rwa [hsplit] at key

theorem enforceRetention_fst_unpinned (maxCount : Nat) (pinned : Artifact → Bool)
    (dir : List Artifact) (h : dir.Nodup) :
    ((enforceRetention maxCount pinned dir).1).filter (fun a => !(pinned a))
      = ((lsT dir).filter (fun a => !(pinned a))).take maxCount := by
  have hnp : ((lsT dir).filter (fun a => !(pinned a))).Nodup :=
    (nodup_lsT h).filter _
  simp only [enforceRetention]
  split
  · have hcomm : ∀ a ∈ lsT dir,
        (!(pinned a) &&
          decide (a ∉ ((lsT dir).filter (fun a => !(pinned a))).drop maxCount))
        = (decide (a ∉ ((lsT dir).filter (fun a => !(pinned a))).drop maxCount) &&
            !(pinned a)) :=
      fun a _ => Bool.and_comm _ _
    rw [List.filter_filter, List.filter_congr hcomm, ← List.filter_filter,
      filter_not_mem_drop maxCount hnp]
  · rename_i hle
    rw [List.take_of_length_le (Nat.le_of_not_lt hle)]

theorem enforceRetention_fst_pinned (maxCount : Nat) (pinned : Artifact → Bool)
    (dir : List Artifact) :
    ((enforceRetention maxCount pinned dir).1).filter pinned
      = (lsT dir).filter pinned := by
  simp only [enforceRetention]
  split
  · rw [List.filter_filter]
    apply List.filter_congr
    intro a _
    by_cases hp : pinned a
    · have : a ∉ ((lsT dir).filter (fun a => !(pinned a))).drop maxCount := by
        intro hmem
        have := (List.mem_filter.mp (List.drop_subset _ _ hmem)).2
        simp [hp] at this
      simp [hp, this]
    · simp [hp]
  · rfl

theorem enforceRetention_snd_not_pinned (maxCount : Nat) (pinned : Artifact → Bool)
    (dir : List Artifact) :
    ∀ b ∈ (enforceRetention maxCount pinned dir).2, pinned b = false := by
  simp only [enforceRetention]
  split
  · intro b hb
    have := (List.mem_filter.mp (List.drop_subset _ _ hb)).2
    simpa using this
  · intro b hb
    simp at hb

theorem enforceRetention_sorted_fst (maxCount : Nat) (pinned : Artifact → Bool)
    (dir : List Artifact) :
    ((enforceRetention maxCount pinned dir).1).Sorted newerFirst := by
  simp only [enforceRetention]
  split
  · exact List.Pairwise.sublist (List.filter_sublist _) (sorted_lsT dir)
  · exact sorted_lsT dir

theorem enforceRetention_count_le (maxCount : Nat) (pinned : Artifact → Bool)
    (dir : List Artifact) (h : dir.Nodup) :
    (((enforceRetention maxCount pinned dir).1).filter (fun a => !(pinned a))).length
      ≤ maxCount := by
  rw [enforceRetention_fst_unpinned maxCount pinned dir h, List.length_take]
  exact Nat.min_le_left _ _

theorem enforceRetention_kept_newer (maxCount : Nat) (pinned : Artifact → Bool)
    (dir : List Artifact) (h : dir.Nodup) :
    ∀ a ∈ (enforceRetention maxCount pinned dir).1, pinned a = false →
      ∀ b ∈ (enforceRetention maxCount pinned dir).2, b.mtime ≤ a.mtime := by
  intro a ha hpa b hb
  have hsortednp : ((lsT dir).filter (fun x => !(pinned x))).Sorted newerFirst :=
    List.Pairwise.sublist (List.filter_sublist _) (sorted_lsT dir)
  have ha' : a ∈ ((enforceRetention maxCount pinned dir).1).filter
      (fun x => !(pinned x)) :=
    List.mem_filter.mpr ⟨ha, by simp [hpa]⟩
  rw [enforceRetention_fst_unpinned maxCount pinned dir h] at ha'
  have hb' : b ∈ ((lsT dir).filter (fun x => !(pinned x))).drop maxCount := by
    revert hb
    simp only [enforceRetention]
    split
    · exact fun hb => hb
    · intro hb
      simp at hb
  have hpw : (((lsT dir).filter (fun x => !(pinned x))).take maxCount
      ++ ((lsT dir).filter (fun x => !(pinned x))).drop maxCount).Pairwise
        newerFirst := by
    rw [List.take_append_drop]
    exact hsortednp
  exact (List.pairwise_append.mp hpw).2.2 a ha' b hb'

theorem cameraCycle_dir (hour : Nat) (cap : Option Artifact) (dir : List Artifact) :
    (cameraCycle hour cap dir).dir
      = (enforceRetention 30 isPinned
          (if windowOpen hour then dir ++ cap.toList else dir)).1 := by
  simp only [cameraCycle]
  by_cases hw : windowOpen hour
  · cases cap <;> simp [hw, Option.toList]
  · simp [hw]

end WeatherStation

namespace WeatherStation

/-- C1: the aligned index of the satellite loop.  The claim: the index floors
`now` to the most recent 15-minute boundary (≤ `now`, within 900 s), with
`2024-06-01T10:07:00Z ↦ 202406011000` and `10:22:00Z ↦ 202406011015`.  The
code divides and multiplies the minute by 65, so the target minute is 0 for
every minute of the hour: 10:22 yields `202406011000`, not `202406011015`,
and the index then lags the clock by 22 minutes = 1320 s ≥ 900 s.  This
contradicts the code's own comments ("Calculate the minute of the last
15-minute interval (00, 15, 30, 45)", "Multiply by 15"). -/
theorem satellite_timestamp_bug :
    LATEST_TIMESTAMP ⟨2024, 6, 1, 10, 7⟩ = "202406011000"
    ∧ LATEST_TIMESTAMP ⟨2024, 6, 1, 10, 22⟩ = "202406011000"
    ∧ ("202406011000" : String) ≠ "202406011015"
    ∧ TARGET_MINUTE_NUM 22 = 0
    ∧ ¬ ((22 - TARGET_MINUTE_NUM 22) * 60 < 900)
    ∧ ∀ m : Nat, m ≤ 59 → TARGET_MINUTE_NUM m = 0 :=
  ⟨rfl, rfl, by decide, rfl, by decide, fun m hm => by
    have h65 : m / 65 = 0 := Nat.div_eq_of_lt (by omega)
    simp [TARGET_MINUTE_NUM, INTERVAL_NUM, h65]⟩

/-- Closed-form instance of `satellite_timestamp_bug` discharging its one
bounded hypothesis at minute 22. -/
theorem satellite_timestamp_bug_witness :
    (22 : Nat) ≤ 59 ∧ TARGET_MINUTE_NUM 22 = 0 :=
  ⟨by decide, satellite_timestamp_bug.2.2.2.2.2 22 (by decide)⟩

/-- C5: the camera capture window gate is open iff `3 ≤ hour < 18`; it
depends only on the UTC hour component of the clock reading; hour 2 is
closed, hour 3 open, hour 17 open, hour 18 closed. -/
theorem window_gate_spec :
    (∀ now : ClockReading, cameraGate now = decide (3 ≤ now.hour ∧ now.hour < 18))
    ∧ windowOpen 2 = false ∧ windowOpen 3 = true
    ∧ windowOpen 17 = true ∧ windowOpen 18 = false :=
  ⟨fun now => by
      by_cases h1 : 3 ≤ now.hour <;> by_cases h2 : now.hour < 18 <;>
        simp [cameraGate, windowOpen, h1, h2],
    rfl, rfl, rfl, rfl⟩

/-- C2 counterexample: with a prior snapshot `[1]` stored at the target
path, a cycle whose fetch returns a zero-length payload does not leave the
prior file unchanged — `curl -o` overwrites the target with the empty body
and `rm -f` then deletes it, so the cycle ends with no file at all. -/
theorem empty_fetch_clobbers_snapshot_cex :
    runSat (some [1]) (satelliteCycle ⟨2024, 6, 1, 10, 7⟩ (CurlResult.ok []))
      ≠ some [1]
    ∧ runSat (some [1]) (satelliteCycle ⟨2024, 6, 1, 10, 7⟩ (CurlResult.ok []))
      = none := by
  constructor
  · intro hcontra
    simp [runSat, satelliteCycle, applySatEvent] at hcontra
  · rfl

/-- C2 amended: in a cycle whose fetch exits 0 with a zero-length payload,
the loop writes the empty body over the fixed target path and then removes
the file, so the cycle ends with no file at the target path — a prior
snapshot is deleted, not preserved.  (Only a failed `curl` exit leaves the
prior snapshot untouched.) -/
theorem empty_fetch_removes_target :
    ∀ (c : ClockReading) (st : Option (List Nat)),
      satelliteCycle c (CurlResult.ok [])
        = [SatEvent.fetch (LATEST_TIMESTAMP c), SatEvent.write [],
           SatEvent.removeFile, SatEvent.sleep 900]
      ∧ runSat st (satelliteCycle c (CurlResult.ok [])) = none
      ∧ ∀ e : Nat, runSat st (satelliteCycle c (CurlResult.err e)) = st :=
  fun _ _ => ⟨rfl, rfl, fun _ => rfl⟩

/-- C3: one retention pass leaves at most `maxCount` unpinned artifacts;
the retained unpinned artifacts are exactly the newest `maxCount` of the
newest-first unpinned listing; every pinned artifact survives; nothing
pinned is evicted; and every retained unpinned artifact is at least as
recent as every evicted one. -/
theorem retention_pass_spec (maxCount : Nat) (pinned : Artifact → Bool)
    (dir : List Artifact) (h : dir.Nodup) :
    (((enforceRetention maxCount pinned dir).1).filter
        (fun a => !(pinned a))).length ≤ maxCount
    ∧ ((enforceRetention maxCount pinned dir).1).filter (fun a => !(pinned a))
        = ((lsT dir).filter (fun a => !(pinned a))).take maxCount
    ∧ ((enforceRetention maxCount pinned dir).1).filter pinned
        = (lsT dir).filter pinned
    ∧ (∀ b ∈ (enforceRetention maxCount pinned dir).2, pinned b = false)
    ∧ ∀ a ∈ (enforceRetention maxCount pinned dir).1, pinned a = false →
        ∀ b ∈ (enforceRetention maxCount pinned dir).2, b.mtime ≤ a.mtime :=
  ⟨enforceRetention_count_le maxCount pinned dir h,
    enforceRetention_fst_unpinned maxCount pinned dir h,
    enforceRetention_fst_pinned maxCount pinned dir,
    enforceRetention_snd_not_pinned maxCount pinned dir,
    enforceRetention_kept_newer maxCount pinned dir h⟩

/-- Instance of `retention_pass_spec` on the claim's example: `maxCount =
2`, five unpinned and two pinned frames; exactly the two newest unpinned
and both pinned frames remain — four files in total. -/
theorem retention_pass_spec_witness :
    exampleDir.Nodup
    ∧ ((((enforceRetention 2 isPinned exampleDir).1).filter
          (fun a => !(isPinned a))).length ≤ 2
      ∧ ((enforceRetention 2 isPinned exampleDir).1).filter
            (fun a => !(isPinned a))
          = ((lsT exampleDir).filter (fun a => !(isPinned a))).take 2
      ∧ ((enforceRetention 2 isPinned exampleDir).1).filter isPinned
          = (lsT exampleDir).filter isPinned
      ∧ (∀ b ∈ (enforceRetention 2 isPinned exampleDir).2, isPinned b = false)
      ∧ ∀ a ∈ (enforceRetention 2 isPinned exampleDir).1, isPinned a = false →
          ∀ b ∈ (enforceRetention 2 isPinned exampleDir).2,
            b.mtime ≤ a.mtime)
    ∧ (enforceRetention 2 isPinned exampleDir).1
        = [⟨"01-06-2024_10:00:00.jpg", 100⟩, ⟨"THUNDER_a.jpg", 90⟩,
           ⟨"01-06-2024_09:00:00.jpg", 80⟩, ⟨"THUNDER_b.jpg", 60⟩]
    ∧ ((enforceRetention 2 isPinned exampleDir).1).length = 4 :=
  ⟨by decide, retention_pass_spec 2 isPinned exampleDir (by decide),
    by decide, by decide⟩

/-- C4 counterexample: with prior snapshot `[1, 2]` and new payload
`[3, 4]`, a reader during the in-place `curl -o` write can observe the
content `[3]` — neither no file, nor the previous content, nor the new
content: the source's direct write is not atomic. -/
theorem direct_write_partial_cex :
    some [3] ∈ directWriteStates (some [1, 2]) [3, 4]
    ∧ some [3] ≠ (none : Option (List Nat))
    ∧ some [3] ≠ some [1, 2]
    ∧ some [3] ≠ some [3, 4] := by
  refine ⟨?_, by decide, by decide, by decide⟩
  simp [directWriteStates, List.range_succ]

/-- C4 amended: the latest-snapshot write streams the payload directly
over the fixed target path (no temporary file, no rename): once the
write completes the target holds exactly the new payload, but during the
write every prefix of the payload is an observable content of the target
path, so a mid-write reader can see partially written bytes. -/
theorem direct_write_behavior (prior : Option (List Nat)) (payload : List Nat)
    (k : Nat) (hk : k ≤ payload.length) :
    some (payload.take k) ∈ directWriteStates prior payload
    ∧ (directWriteStates prior payload).getLast? = some (some payload) := by
  constructor
  · exact List.mem_cons_of_mem _
      (List.mem_map.mpr ⟨k, List.mem_range.mpr (Nat.lt_succ_of_le hk), rfl⟩)
  · show ((prior :: (List.range (payload.length + 1)).map
        (fun k => some (payload.take k)))).getLast? = some (some payload)
    rw [List.range_succ, List.map_append]
    show ((prior :: (List.range payload.length).map
        (fun k => some (payload.take k))) ++ [some (payload.take payload.length)]).getLast?
      = some (some payload)
    rw [List.getLast?_concat, List.take_length]

/-- Closed-form instance of `direct_write_behavior` at prior `[1, 2]`,
payload `[3, 4]`, one byte written. -/
theorem direct_write_behavior_witness :
    (1 : Nat) ≤ ([3, 4] : List Nat).length
    ∧ (some (([3, 4] : List Nat).take 1) ∈ directWriteStates (some [1, 2]) [3, 4]
      ∧ (directWriteStates (some [1, 2]) [3, 4]).getLast? = some (some [3, 4])) :=
  ⟨by decide, direct_write_behavior (some [1, 2]) [3, 4] 1 (by decide)⟩

/-- C6: the retention pass is idempotent — applied to the directory a
first pass leaves behind, a second pass evicts nothing and leaves the
directory identical. -/
theorem retention_idempotent (maxCount : Nat) (pinned : Artifact → Bool)
    (dir : List Artifact) (h : dir.Nodup) :
    enforceRetention maxCount pinned ((enforceRetention maxCount pinned dir).1)
      = ((enforceRetention maxCount pinned dir).1, ([] : List Artifact)) := by
  set K := (enforceRetention maxCount pinned dir).1 with hK
  have hsorted : K.Sorted newerFirst := enforceRetention_sorted_fst maxCount pinned dir
  have hls : lsT K = K := List.Sorted.insertionSort_eq hsorted
  have hcount : (K.filter (fun a => !(pinned a))).length ≤ maxCount :=
    enforceRetention_count_le maxCount pinned dir h
  simp only [enforceRetention, hls]
  rw [if_neg (Nat.not_lt.mpr hcount)]

/-- Instance of `retention_idempotent` on the example directory with
`maxCount = 2`. -/
theorem retention_idempotent_witness :
    exampleDir.Nodup
    ∧ enforceRetention 2 isPinned ((enforceRetention 2 isPinned exampleDir).1)
        = ((enforceRetention 2 isPinned exampleDir).1, ([] : List Artifact)) :=
  ⟨by decide, retention_idempotent 2 isPinned exampleDir (by decide)⟩

/-- C7: every cycle of either loop ends with the same fixed sleep —
900 s for the satellite loop, 300 s for the camera loop — whatever the
cycle's outcome; and when the window gate is closed the camera cycle
still occurs: its trace starts with the skip message and still ends with
the normal 300 s sleep. -/
theorem fixed_sleep_every_cycle :
    (∀ (c : ClockReading) (r : CurlResult),
        (satelliteCycle c r).getLast? = some (SatEvent.sleep 900))
    ∧ (∀ (hour : Nat) (cap : Option Artifact) (dir : List Artifact),
        (cameraCycle hour cap dir).events.getLast? = some (CamEvent.sleep 300))
    ∧ ∀ (hour : Nat) (cap : Option Artifact) (dir : List Artifact),
        windowOpen hour = false →
          (cameraCycle hour cap dir).events.head? = some CamEvent.skipped
          ∧ (cameraCycle hour cap dir).events.getLast?
              = some (CamEvent.sleep 300) := by
  refine ⟨fun c r => ?_, fun hour cap dir => ?_, fun hour cap dir hw => ⟨?_, ?_⟩⟩
  · cases r with
    | ok body =>
        by_cases hb : body.length ≠ 0 <;> simp [satelliteCycle, hb]
    | err e => rfl
  · simp only [cameraCycle]
    exact List.getLast?_concat _
  · simp [cameraCycle, hw]
  · simp only [cameraCycle]
    exact List.getLast?_concat _

/-- Instance of `fixed_sleep_every_cycle` at the closed hour 2. -/
theorem fixed_sleep_every_cycle_witness :
    windowOpen 2 = false
    ∧ ((cameraCycle 2 none []).events.head? = some CamEvent.skipped
      ∧ (cameraCycle 2 none []).events.getLast? = some (CamEvent.sleep 300)) :=
  ⟨rfl, fixed_sleep_every_cycle.2.2 2 none [] rfl⟩

/-- C8: the satellite loop makes exactly one retrieval attempt per cycle,
whatever the outcome (valid payload, empty payload, or curl error) — no
in-cycle retry. -/
theorem one_fetch_per_cycle :
    ∀ (c : ClockReading) (r : CurlResult),
      ((satelliteCycle c r).filter isFetch).length = 1
      ∧ (satelliteCycle c r).head? = some (SatEvent.fetch (LATEST_TIMESTAMP c)) := by
  intro c r
  cases r with
  | ok body =>
      by_cases hb : body.length ≠ 0 <;>
        simp [satelliteCycle, hb, isFetch]
  | err e => exact ⟨rfl, rfl⟩

/-- C9: the pruning block runs in every camera cycle — after the gate
branch, whether the gate was open or closed and whether the capture
produced a file or not — so the bounded-count invariant on unpinned
frames holds at the end of every cycle. -/
theorem retention_every_cycle (hour : Nat) (cap : Option Artifact)
    (dir : List Artifact) (hnd : (dir ++ cap.toList).Nodup) :
    (((cameraCycle hour cap dir).dir).filter (fun a => !(isPinned a))).length
      ≤ 30 := by
  have hdir : dir.Nodup := List.Nodup.sublist (List.sublist_append_left _ _) hnd
  rw [cameraCycle_dir]
  by_cases hw : windowOpen hour
  · rw [if_pos hw]
    exact enforceRetention_count_le 30 isPinned _ hnd
  · rw [if_neg hw]
    exact enforceRetention_count_le 30 isPinned _ hdir

/-- Instance of `retention_every_cycle` for a closed-window cycle (hour
2, no capture) on the example directory. -/
theorem retention_every_cycle_witness :
    (exampleDir ++ (none : Option Artifact).toList).Nodup
    ∧ (((cameraCycle 2 none exampleDir).dir).filter
          (fun a => !(isPinned a))).length ≤ 30 :=
  ⟨by decide, retention_every_cycle 2 none exampleDir (by decide)⟩

/-- C10: the offline-cache service worker answers cache-first: a cached
response is returned as-is (and the answer does not depend on the network
at all), an uncached request is forwarded to the network; and the fetch
handler never modifies the cache, which is populated only by the install
handler. -/
theorem cache_first_fetch :
    (∀ (st : CacheState) (network : String → String) (req r : String),
        cachesMatch st req = some r →
          (fetchHandler st network req).1 = Served.fromCache r
          ∧ ∀ network' : String → String,
              fetchHandler st network req = fetchHandler st network' req)
    ∧ (∀ (st : CacheState) (network : String → String) (req : String),
        cachesMatch st req = none →
          (fetchHandler st network req).1 = Served.fromNetwork (network req))
    ∧ ∀ (st : CacheState) (network : String → String) (req : String),
        (fetchHandler st network req).2 = st := by
  refine ⟨fun st network req r hm => ⟨?_, fun network' => ?_⟩,
    fun st network req hm => ?_, fun st network req => rfl⟩
  · simp [fetchHandler, hm]
  · simp [fetchHandler, hm]
  · simp [fetchHandler, hm]

/-- Instance of `cache_first_fetch` on the installed example cache: `/`
is served from the cache, `/data` from the network. -/
theorem cache_first_fetch_witness :
    cachesMatch exampleCache "/" = some (exampleNetwork "/")
    ∧ (fetchHandler exampleCache exampleNetwork "/").1
        = Served.fromCache (exampleNetwork "/")
    ∧ cachesMatch exampleCache "/data" = none
    ∧ (fetchHandler exampleCache exampleNetwork "/data").1
        = Served.fromNetwork (exampleNetwork "/data") := by
  have h1 : cachesMatch exampleCache "/" = some (exampleNetwork "/") := by decide
  have h2 : cachesMatch exampleCache "/data" = none := by decide
  exact ⟨h1, (cache_first_fetch.1 exampleCache exampleNetwork "/"
      (exampleNetwork "/") h1).1,
    h2, cache_first_fetch.2.1 exampleCache exampleNetwork "/data" h2⟩

end WeatherStation
